import Mathlib

/-!
Shallow embedding of the globalTrader-Company simulation core.

Source layout:
* src/unnamed/part_003 : the commodity catalog and numeric constants
* src/unnamed/part_004 : the type declarations
* src/unnamed/part_002 : two App components; variant A spans lines 96-668 and
  variant B spans lines 670-1201.  Each contains a per-tick transition inside
  a setInterval callback and the player action handlers.
* src/unnamed/part_000 and part_001 : the CommodityCard component with the
  percent price-change display
* src/components/ProductionPanel.tsx : presentation only

JavaScript numbers are modelled by the rationals: every arithmetic operation
performed by the source (addition, multiplication, division, Math.floor,
Math.max, Math.abs, the remainder operator on the nonnegative operands that
occur) is exact on the rationals.  Every Math.random draw is passed in as an
explicit rational parameter, so the transition functions are pure.
-/

/-- CommodityCategory enum from src/unnamed/part_004. -/
inductive CommodityCategory
  | ENERGY
  | METAL
  | AGRICULTURE
  | LIVESTOCK
deriving DecidableEq, Repr

/-- The category field of a GlobalEvent: a commodity category or the
wildcard ALL (the TypeScript union CommodityCategory | ALL). -/
inductive EventCategory
  | cat (c : CommodityCategory)
  | ALL
deriving DecidableEq, Repr

/-- Commodity record from src/unnamed/part_004.  The icon field is
presentation only and is omitted. -/
structure Commodity where
  id : String
  name : String
  category : CommodityCategory
  basePrice : ℚ
  volatility : ℚ
  productionCost : ℚ
  productionYield : ℚ
deriving DecidableEq, Repr

/-- The trend union type of MarketPrice. -/
inductive Trend
  | up
  | down
  | stable
deriving DecidableEq, Repr

/-- MarketPrice record from src/unnamed/part_004. -/
structure MarketPrice where
  id : String
  currentPrice : ℚ
  history : List ℚ
  trend : Trend
deriving DecidableEq, Repr

/-- InventoryItem record from src/unnamed/part_004. -/
structure InventoryItem where
  commodityId : String
  quantity : ℚ
deriving DecidableEq, Repr

/-- ProductionFacility record from src/unnamed/part_004.  The level is a
natural number: the source only ever creates level 1 and increments it. -/
structure ProductionFacility where
  commodityId : String
  level : ℕ
  isProducing : Bool
  progress : ℚ
deriving DecidableEq, Repr

/-- GlobalEvent record from src/unnamed/part_004.  duration and
remainingDays are integers: the source assigns Math.floor results and
decrements by one. -/
structure GlobalEvent where
  name : String
  description : String
  category : EventCategory
  multiplier : ℚ
  duration : ℤ
  remainingDays : ℤ
deriving DecidableEq, Repr

/-- DailyLedger record from src/unnamed/part_004. -/
structure DailyLedger where
  sales : ℚ
  purchases : ℚ
  productionCosts : ℚ
  net : ℚ
deriving DecidableEq, Repr

/-- LifetimeStats record from src/unnamed/part_004. -/
structure LifetimeStats where
  totalSales : ℚ
  totalMarketPurchases : ℚ
  totalProductionCosts : ℚ
  totalConstruction : ℚ
  totalUpgrades : ℚ
  totalInterestPaid : ℚ
  totalTaxesPaid : ℚ
deriving DecidableEq, Repr

/-- GameState record from src/unnamed/part_004.  The prices field is the
Record keyed by commodity id, modelled as a total function on strings; it is
only ever read at catalog ids. -/
structure GameState where
  cash : ℚ
  debt : ℚ
  day : ℤ
  cycleProgress : ℤ
  inventory : List InventoryItem
  facilities : List ProductionFacility
  prices : String → MarketPrice
  lastLedger : DailyLedger
  lifetime : LifetimeStats
  activeEvent : Option GlobalEvent
  taxRate : ℚ
  nextTaxDay : ℤ

/-- The three cycle counters held in React refs by both App variants
(cyclePurchasesRef, cycleSalesRef, cycleProductionRef). -/
structure Refs where
  cyclePurchases : ℚ
  cycleSales : ℚ
  cycleProduction : ℚ
deriving DecidableEq, Repr

/-- The catalog from src/unnamed/part_003. -/
def COMMODITIES : List Commodity := [
  { id := "oil", name := "Crude Oil", category := .ENERGY, basePrice := 80, volatility := 0.15, productionCost := 50, productionYield := 10 },
  { id := "gas", name := "Natural Gas", category := .ENERGY, basePrice := 4, volatility := 0.25, productionCost := 2, productionYield := 50 },
  { id := "gold", name := "Gold", category := .METAL, basePrice := 2000, volatility := 0.05, productionCost := 1500, productionYield := 1 },
  { id := "steel", name := "Steel", category := .METAL, basePrice := 600, volatility := 0.10, productionCost := 400, productionYield := 5 },
  { id := "wheat", name := "Wheat", category := .AGRICULTURE, basePrice := 250, volatility := 0.12, productionCost := 150, productionYield := 20 },
  { id := "corn", name := "Corn", category := .AGRICULTURE, basePrice := 180, volatility := 0.10, productionCost := 100, productionYield := 25 },
  { id := "beef", name := "Beef", category := .LIVESTOCK, basePrice := 450, volatility := 0.08, productionCost := 300, productionYield := 8 },
  { id := "pork", name := "Pork", category := .LIVESTOCK, basePrice := 320, volatility := 0.09, productionCost := 200, productionYield := 12 }]

/-- INITIAL_CASH from src/unnamed/part_003. -/
def INITIAL_CASH : ℚ := 5000

/-- DAILY_INTEREST_RATE, identical in both App variants. -/
def DAILY_INTEREST_RATE : ℚ := 0.015

/-- INITIAL_TAX_RATE of variant A (line 104). -/
def INITIAL_TAX_RATE_A : ℚ := 0.15

/-- INITIAL_TAX_RATE of variant B (line 678). -/
def INITIAL_TAX_RATE_B : ℚ := 0.20

/-- TAX_CYCLE, identical in both App variants. -/
def TAX_CYCLE : ℤ := 30

/-- An EVENTS_POOL entry: a GlobalEvent without duration and remainingDays. -/
structure EventTemplate where
  name : String
  description : String
  category : EventCategory
  multiplier : ℚ
deriving DecidableEq, Repr

/-- EVENTS_POOL, identical in both App variants. -/
def EVENTS_POOL : List EventTemplate := [
  { name := "OPEC Production Cut", description := "Energy prices surge as oil supply is restricted.", category := .cat .ENERGY, multiplier := 2.1 },
  { name := "Global Drought", description := "Crop failures leading to massive grain shortages.", category := .cat .AGRICULTURE, multiplier := 1.8 },
  { name := "Financial Safe Haven", description := "Investors rush to precious metals amid uncertainty.", category := .cat .METAL, multiplier := 1.6 },
  { name := "Livestock Epidemic", description := "Supply chain collapse in meat production.", category := .cat .LIVESTOCK, multiplier := 2.3 },
  { name := "Technological Breakthrough", description := "Efficiency gains lead to market surplus and price drops.", category := .ALL, multiplier := 0.5 },
  { name := "Trade War Escalation", description := "Global tariffs crush industrial demand.", category := .cat .METAL, multiplier := 0.6 },
  { name := "Energy Discovery", description := "New shale reserves discovered, energy prices tank.", category := .cat .ENERGY, multiplier := 0.4 }]

/-- Catalog lookup.  The source writes COMMODITIES.find(c => c.id === id)
followed by a non-null assertion; the default value below is never reached
for the catalog ids the program actually uses. -/
def findCommodity (id : String) : Commodity :=
  (COMMODITIES.find? (fun c => c.id == id)).getD
    { id := id, name := "", category := .ENERGY, basePrice := 0, volatility := 0, productionCost := 0, productionYield := 0 }

/-- The JavaScript remainder a % b.  On the nonnegative operands produced by
the production loop it coincides with this floor-based remainder. -/
def jsMod (a b : ℚ) : ℚ := a - b * (⌊a / b⌋ : ℚ)

/-- The per-commodity price step shared verbatim by both App variants
(variant A lines 207-219, variant B lines 796-815).  rand is the
Math.random draw for this commodity. -/
def nextPrice (c : Commodity) (ev : Option GlobalEvent) (rand : ℚ) (price : MarketPrice) : MarketPrice :=
  let targetPrice : ℚ :=
    match ev with
    | some e => if e.category = .cat c.category ∨ e.category = .ALL then c.basePrice * e.multiplier else c.basePrice
    | none => c.basePrice
  let changePercent := (rand - 0.5) * 2 * c.volatility
  let gravity := (targetPrice - price.currentPrice) * 0.1
  let newPrice := max (c.basePrice * 0.1) ((price.currentPrice + gravity) * (1 + changePercent))
  let newHistory := (price.history ++ [newPrice]).drop ((price.history ++ [newPrice]).length - 20)
  { price with
    currentPrice := newPrice,
    history := newHistory,
    trend := if newPrice > price.currentPrice then .up else .down }

/-- Assignment nextPrices[id] = v on the price record. -/
def setPrice (ps : String → MarketPrice) (k : String) (v : MarketPrice) : String → MarketPrice :=
  fun x => if x = k then v else ps x

/-- The COMMODITIES.forEach price loop as a fold over an arbitrary list. -/
def priceFold (ev : Option GlobalEvent) (pr : String → ℚ) (l : List Commodity) (ps : String → MarketPrice) : String → MarketPrice :=
  l.foldl (fun acc c => setPrice acc c.id (nextPrice c ev (pr c.id) (acc c.id))) ps

/-- The full price loop over the catalog. -/
def tickPrices (ev : Option GlobalEvent) (pr : String → ℚ) (ps : String → MarketPrice) : String → MarketPrice :=
  priceFold ev pr COMMODITIES ps

/-- The Math.random draws consumed by one tick, as explicit parameters. -/
structure TickRandoms where
  priceRand : String → ℚ
  taxRand : ℚ
  eventTriggerRand : ℚ
  eventSelectRand : ℚ
  durationRand : ℚ

/-- The event lifecycle step shared verbatim by both App variants
(variant A lines 242-252, variant B lines 783-793): decrement and possibly
clear the active event, then possibly trigger a new one. -/
def eventStep (r : TickRandoms) (ev0 : Option GlobalEvent) (nextCycleProgress : ℤ) : Option GlobalEvent :=
  let ev1 : Option GlobalEvent :=
    match ev0 with
    | some e => if e.remainingDays - 1 ≤ 0 then none else some { e with remainingDays := e.remainingDays - 1 }
    | none => none
  if 10 ≤ nextCycleProgress ∧ ev1 = none ∧ 0.3 < r.eventTriggerRand then
    let base := EVENTS_POOL.getD (Int.toNat ⌊r.eventSelectRand * (EVENTS_POOL.length : ℚ)⌋)
      { name := "", description := "", category := .ALL, multiplier := 1 }
    let duration : ℤ := ⌊r.durationRand * 5⌋ + 3
    some { name := base.name, description := base.description, category := base.category, multiplier := base.multiplier, duration := duration, remainingDays := duration }
  else ev1

/-- Replacement value of one facility: unlock cost plus the floor of every
historical upgrade cost, as computed in the infrastructureValue memo and in
the variant A tax block. -/
def facilityValue (f : ProductionFacility) : ℚ :=
  let c := findCommodity f.commodityId
  let base := c.basePrice * 25
  ((List.range f.level).drop 1).foldl (fun acc i => acc + (⌊base * (1.8 : ℚ) ^ i⌋ : ℚ)) base

/-- Update of the first inventory entry matching id, as performed by the
findIndex plus element assignment in the production loop.  When no entry
matches, the list is returned unchanged. -/
def bumpQty (id : String) (amount : ℚ) : List InventoryItem → List InventoryItem
  | [] => []
  | i :: rest =>
    if i.commodityId == id then { i with quantity := i.quantity + amount } :: rest
    else i :: bumpQty id amount rest

/-- The body of the production forEach loop, shared verbatim by both App
variants (variant A lines 258-283, variant B lines 822-847).  The
accumulator carries nextInventory, nextFacilities and the running
currentDayProductionCost. -/
def facilityStep (hasNoCash : Bool) (acc : List InventoryItem × List ProductionFacility × ℚ)
    (facility : ProductionFacility) : List InventoryItem × List ProductionFacility × ℚ :=
  let commodity := findCommodity facility.commodityId
  let isForcePaused := facility.isProducing && hasNoCash
  let actualProducing := facility.isProducing && !hasNoCash
  if actualProducing then
    let currentLevelCost : ℚ := (⌊commodity.productionCost * (1.4 : ℚ) ^ (facility.level - 1)⌋ : ℚ)
    let speedFactor : ℚ := 5 + (facility.level : ℚ) * 10
    let newProgress := facility.progress + speedFactor
    if newProgress ≥ 100 then
      (bumpQty facility.commodityId commodity.productionYield acc.1,
       acc.2.1 ++ [{ facility with progress := jsMod newProgress 100 }],
       acc.2.2 + currentLevelCost)
    else
      (acc.1, acc.2.1 ++ [{ facility with progress := newProgress }], acc.2.2 + currentLevelCost)
  else
    (acc.1,
     acc.2.1 ++ [{ facility with isProducing := if isForcePaused then false else facility.isProducing }],
     acc.2.2)

/-- The per-tick transition of variant A (src/unnamed/part_002 lines
194-321).  Source order: price loop first, using the active event carried
over from the previous tick; then the tax block; then the event lifecycle;
then interest; then production; then the cycle ledger. -/
def tickA (r : TickRandoms) (refs : Refs) (prev : GameState) : Refs × GameState :=
  let nextDay := prev.day + 1
  let nextPrices := tickPrices prev.activeEvent r.priceRand prev.prices
  let taxTriggered := nextDay ≥ prev.nextTaxDay
  let currentInvVal := prev.inventory.foldl (fun acc item => acc + item.quantity * (nextPrices item.commodityId).currentPrice) 0
  let currentInfraVal := prev.facilities.foldl (fun acc f => acc + facilityValue f) 0
  let currentNetWorth := prev.cash + currentInvVal + currentInfraVal - prev.debt
  let taxBill := if taxTriggered then max 0 (currentNetWorth * prev.taxRate) else 0
  let nextCash := prev.cash - taxBill
  let totalTaxesPaid := prev.lifetime.totalTaxesPaid + taxBill
  let currentTaxRate := if taxTriggered then 0.10 + r.taxRand * 0.10 else prev.taxRate
  let newNextTaxDay := if taxTriggered then prev.nextTaxDay + TAX_CYCLE else prev.nextTaxDay
  let nextCycleProgress := prev.cycleProgress + 1
  let nextEvent := eventStep r prev.activeEvent nextCycleProgress
  let dailyInterest := prev.debt * DAILY_INTEREST_RATE
  let nextDebt := prev.debt + dailyInterest
  let hasNoCash := decide (nextCash ≤ 0)
  let prod := prev.facilities.foldl (facilityStep hasNoCash) (prev.inventory, ([] : List ProductionFacility), (0 : ℚ))
  let nextInventory := prod.1
  let nextFacilities := prod.2.1
  let currentDayProductionCost := prod.2.2
  let cycleProduction := refs.cycleProduction + currentDayProductionCost
  let finalLedger :=
    if nextCycleProgress ≥ 10 then
      { sales := refs.cycleSales,
        purchases := refs.cyclePurchases,
        productionCosts := cycleProduction,
        net := refs.cycleSales - refs.cyclePurchases - cycleProduction }
    else prev.lastLedger
  let nextRefs : Refs := if nextCycleProgress ≥ 10 then ⟨0, 0, 0⟩ else { refs with cycleProduction := cycleProduction }
  (nextRefs,
   { prev with
     day := nextDay
     cycleProgress := if nextCycleProgress ≥ 10 then 0 else nextCycleProgress
     prices := nextPrices
     inventory := nextInventory
     facilities := nextFacilities
     cash := nextCash - currentDayProductionCost
     debt := nextDebt
     lastLedger := finalLedger
     activeEvent := nextEvent
     taxRate := currentTaxRate
     nextTaxDay := newNextTaxDay
     lifetime := { prev.lifetime with
       totalProductionCosts := prev.lifetime.totalProductionCosts + currentDayProductionCost
       totalInterestPaid := prev.lifetime.totalInterestPaid + dailyInterest
       totalTaxesPaid := totalTaxesPaid } })

/-- The per-tick transition of variant B (src/unnamed/part_002 lines
755-885).  Source order: tax block first (on liquid cash, no clamp at 0);
then the event lifecycle; then the price loop, using the post-update event;
then interest; then production.  The returned cash is clamped at 0. -/
def tickB (r : TickRandoms) (refs : Refs) (prev : GameState) : Refs × GameState :=
  let nextDay := prev.day + 1
  let taxTriggered := nextDay ≥ prev.nextTaxDay
  let taxBill := if taxTriggered then prev.cash * prev.taxRate else 0
  let nextCash := prev.cash - taxBill
  let totalTaxesPaid := prev.lifetime.totalTaxesPaid + taxBill
  let currentTaxRate := if taxTriggered then 0.10 + r.taxRand * 0.25 else prev.taxRate
  let newNextTaxDay := if taxTriggered then prev.nextTaxDay + TAX_CYCLE else prev.nextTaxDay
  let nextCycleProgress := prev.cycleProgress + 1
  let nextEvent := eventStep r prev.activeEvent nextCycleProgress
  let nextPrices := tickPrices nextEvent r.priceRand prev.prices
  let dailyInterest := prev.debt * DAILY_INTEREST_RATE
  let nextDebt := prev.debt + dailyInterest
  let hasNoCash := decide (nextCash ≤ 0)
  let prod := prev.facilities.foldl (facilityStep hasNoCash) (prev.inventory, ([] : List ProductionFacility), (0 : ℚ))
  let nextInventory := prod.1
  let nextFacilities := prod.2.1
  let currentDayProductionCost := prod.2.2
  let cycleProduction := refs.cycleProduction + currentDayProductionCost
  let finalLedger :=
    if nextCycleProgress ≥ 10 then
      { sales := refs.cycleSales,
        purchases := refs.cyclePurchases,
        productionCosts := cycleProduction,
        net := refs.cycleSales - refs.cyclePurchases - cycleProduction }
    else prev.lastLedger
  let nextRefs : Refs := if nextCycleProgress ≥ 10 then ⟨0, 0, 0⟩ else { refs with cycleProduction := cycleProduction }
  (nextRefs,
   { prev with
     day := nextDay
     cycleProgress := if nextCycleProgress ≥ 10 then 0 else nextCycleProgress
     prices := nextPrices
     inventory := nextInventory
     facilities := nextFacilities
     cash := max 0 (nextCash - currentDayProductionCost)
     debt := nextDebt
     lastLedger := finalLedger
     activeEvent := nextEvent
     taxRate := currentTaxRate
     nextTaxDay := newNextTaxDay
     lifetime := { prev.lifetime with
       totalProductionCosts := prev.lifetime.totalProductionCosts + currentDayProductionCost
       totalInterestPaid := prev.lifetime.totalInterestPaid + dailyInterest
       totalTaxesPaid := totalTaxesPaid } })

/-- n ticks of variant A, threading the cycle refs through. -/
def runTicksA (rs : List TickRandoms) (start : Refs × GameState) : Refs × GameState :=
  rs.foldl (fun acc r => tickA r acc.1 acc.2) start

/-- n ticks of variant B, threading the cycle refs through. -/
def runTicksB (rs : List TickRandoms) (start : Refs × GameState) : Refs × GameState :=
  rs.foldl (fun acc r => tickB r acc.1 acc.2) start

/-- handleTrade, identical in both App variants (lines 326-347 and
890-911) apart from the outer isGameOver and pause gates, which live in the
component and perform no state change. -/
def handleTrade (id : String) (quantity : ℚ) (refs : Refs) (prev : GameState) : Refs × GameState :=
  let price := (prev.prices id).currentPrice
  let totalCost := quantity * price
  if 0 < quantity ∧ prev.cash < totalCost then (refs, prev)
  else
    let currentItem := prev.inventory.find? (fun i => i.commodityId == id)
    if quantity < 0 ∧ (currentItem = none ∨ (currentItem.getD { commodityId := id, quantity := 0 }).quantity < |quantity|) then
      (refs, prev)
    else
      let nextRefs :=
        if 0 < quantity then { refs with cyclePurchases := refs.cyclePurchases + totalCost }
        else { refs with cycleSales := refs.cycleSales + |totalCost| }
      (nextRefs,
       { prev with
         cash := prev.cash - totalCost
         inventory := prev.inventory.map (fun item =>
           if item.commodityId == id then { item with quantity := item.quantity + quantity } else item)
         lifetime := { prev.lifetime with
           totalSales := if quantity < 0 then prev.lifetime.totalSales + |totalCost| else prev.lifetime.totalSales
           totalMarketPurchases := if 0 < quantity then prev.lifetime.totalMarketPurchases + totalCost else prev.lifetime.totalMarketPurchases } })

/-- handleUnlockFacility, identical in both App variants (lines 349-362 and
913-925) apart from the variant A pause gate. -/
def handleUnlockFacility (id : String) (prev : GameState) : GameState :=
  let cost := (findCommodity id).basePrice * 25
  if prev.cash < cost ∨ prev.facilities.any (fun f => f.commodityId == id) = true then prev
  else
    { prev with
      cash := prev.cash - cost
      facilities := prev.facilities ++ [{ commodityId := id, level := 1, isProducing := true, progress := 0 }]
      lifetime := { prev.lifetime with totalConstruction := prev.lifetime.totalConstruction + cost } }

/-- handleRepay, identical in both App variants (lines 414-418 and 954-957):
the chosen amount is subtracted from cash and debt with no validation in the
state update itself. -/
def handleRepay (repayAmount : ℚ) (prev : GameState) : GameState :=
  { prev with cash := prev.cash - repayAmount, debt := prev.debt - repayAmount }

/-- takeLoan of variant A (lines 409-412): the component guard skips the
update entirely when debt is positive (the pause flag gate is a scheduling
concern and performs no state change). -/
def takeLoanA (amount : ℚ) (s : GameState) : GameState :=
  if 0 < s.debt then s else { s with cash := s.cash + amount, debt := s.debt + amount }

/-- takeLoan of variant B (lines 950-952): no guard at all. -/
def takeLoanB (amount : ℚ) (s : GameState) : GameState :=
  { s with cash := s.cash + amount, debt := s.debt + amount }

/-- The quantity owned of a given commodity, read off the inventory the way
the source reads it (first entry matching the id, defaulting to 0). -/
def ownedQty (inv : List InventoryItem) (id : String) : ℚ :=
  match inv.find? (fun i => i.commodityId == id) with
  | some i => i.quantity
  | none => 0

/-- The percent price-change displayed by CommodityCard (part_000 lines
15-17 and part_001 lines 19-21), as the exact rational value before the
toFixed formatting. -/
def priceChange (marketData : MarketPrice) : ℚ :=
  if 1 < marketData.history.length then
    (marketData.currentPrice - marketData.history.getD (marketData.history.length - 2) 0)
      / marketData.history.getD (marketData.history.length - 2) 0 * 100
  else 0

/-- The initial prices record built by the useState initializer. -/
def initialPrices : String → MarketPrice := fun id =>
  match COMMODITIES.find? (fun c => c.id == id) with
  | some c => { id := c.id, currentPrice := c.basePrice, history := [c.basePrice], trend := .stable }
  | none => { id := id, currentPrice := 0, history := [], trend := .stable }

/-- The initial GameState of variant A (lines 127-160). -/
def initStateA : GameState :=
  { cash := INITIAL_CASH, debt := 0, day := 1, cycleProgress := 0,
    inventory := COMMODITIES.map (fun c => { commodityId := c.id, quantity := 0 }),
    facilities := [],
    prices := initialPrices,
    lastLedger := { sales := 0, purchases := 0, productionCosts := 0, net := 0 },
    lifetime := { totalSales := 0, totalMarketPurchases := 0, totalProductionCosts := 0, totalConstruction := 0, totalUpgrades := 0, totalInterestPaid := 0, totalTaxesPaid := 0 },
    activeEvent := none, taxRate := INITIAL_TAX_RATE_A, nextTaxDay := TAX_CYCLE }

/-- The initial GameState of variant B (lines 700-733): same but for the
initial tax rate. -/
def initStateB : GameState :=
  { initStateA with taxRate := INITIAL_TAX_RATE_B }

/-- The id string of the oil commodity. -/
def oilId : String := "oil"

/-- The id string of the gold commodity. -/
def goldId : String := "gold"

/-- The oil catalog entry. -/
def oilCommodity : Commodity := findCommodity oilId

/-- A deterministic bundle of random draws: every price shock is the
mean draw 0.5, and no event triggers. -/
def r0 : TickRandoms :=
  { priceRand := fun _ => 0.5, taxRand := 0, eventTriggerRand := 0, eventSelectRand := 0, durationRand := 0 }

/-- Zeroed cycle refs. -/
def refs0 : Refs := ⟨0, 0, 0⟩

/-- A concrete active event in its last remaining day: the OPEC template
with remainingDays 1. -/
def testEvent : GlobalEvent :=
  { name := "OPEC Production Cut", description := "Energy prices surge as oil supply is restricted.",
    category := .cat .ENERGY, multiplier := 2.1, duration := 4, remainingDays := 1 }

/-- The initial state with the test event active. -/
def sEvt : GameState := { initStateA with activeEvent := some testEvent }

/-- The initial state carrying positive debt. -/
def sDebt : GameState := { initStateA with debt := 100 }

/-! Helper lemmas. -/

/-- The price step never goes below a tenth of the base price, by the
Math.max in the source. -/
lemma nextPrice_floor (c : Commodity) (ev : Option GlobalEvent) (rand : ℚ) (p : MarketPrice) :
    c.basePrice * 0.1 ≤ (nextPrice c ev rand p).currentPrice :=
  le_max_left _ _

lemma jsMod_nonneg (a : ℚ) : 0 ≤ jsMod a 100 := by
  have h := Int.floor_le (a / 100)
  unfold jsMod
  linarith

lemma jsMod_lt (a : ℚ) : jsMod a 100 < 100 := by
  have h := Int.lt_floor_add_one (a / 100)
  unfold jsMod
  linarith

lemma priceFold_not_mem (ev : Option GlobalEvent) (pr : String → ℚ) :
    ∀ (l : List Commodity) (ps : String → MarketPrice) (x : String),
      x ∉ l.map (fun c => c.id) → priceFold ev pr l ps x = ps x := by
  intro l
  induction l with
  | nil => intro ps x _; rfl
  | cons d t ih =>
    intro ps x hx
    simp only [List.map_cons, List.mem_cons, not_or] at hx
    have h1 : priceFold ev pr (d :: t) ps x
        = priceFold ev pr t (setPrice ps d.id (nextPrice d ev (pr d.id) (ps d.id))) x := rfl
    rw [h1, ih _ x hx.2, setPrice, if_neg hx.1]

lemma priceFold_head (ev : Option GlobalEvent) (pr : String → ℚ) (c : Commodity)
    (t : List Commodity) (ps : String → MarketPrice) (h : c.id ∉ t.map (fun x => x.id)) :
    priceFold ev pr (c :: t) ps c.id = nextPrice c ev (pr c.id) (ps c.id) := by
  have h1 : priceFold ev pr (c :: t) ps c.id
      = priceFold ev pr t (setPrice ps c.id (nextPrice c ev (pr c.id) (ps c.id))) c.id := rfl
  rw [h1, priceFold_not_mem ev pr t _ c.id h]
  simp [setPrice]

lemma priceFold_mem (ev : Option GlobalEvent) (pr : String → ℚ) :
    ∀ (l : List Commodity) (ps : String → MarketPrice) (c : Commodity),
      c ∈ l → (l.map (fun c => c.id)).Nodup →
      ∃ p0, priceFold ev pr l ps c.id = nextPrice c ev (pr c.id) p0 := by
  intro l
  induction l with
  | nil => intro ps c hc _; cases hc
  | cons d t ih =>
    intro ps c hc hnd
    simp only [List.map_cons, List.nodup_cons] at hnd
    rcases List.mem_cons.mp hc with h | h
    · subst h
      refine ⟨ps c.id, ?_⟩
      have h1 : priceFold ev pr (c :: t) ps c.id
          = priceFold ev pr t (setPrice ps c.id (nextPrice c ev (pr c.id) (ps c.id))) c.id := rfl
      rw [h1, priceFold_not_mem ev pr t _ c.id hnd.1, setPrice, if_pos rfl]
    · exact ih _ c h hnd.2

lemma interestRate_val : DAILY_INTEREST_RATE = 3/200 := by
  norm_num [DAILY_INTEREST_RATE]

lemma tickA_debt (r : TickRandoms) (refs : Refs) (s : GameState) :
    (tickA r refs s).2.debt = s.debt * (203/200) := by
  have h : (tickA r refs s).2.debt = s.debt + s.debt * DAILY_INTEREST_RATE := rfl
  rw [h, interestRate_val]
  ring

lemma tickB_debt (r : TickRandoms) (refs : Refs) (s : GameState) :
    (tickB r refs s).2.debt = s.debt * (203/200) := by
  have h : (tickB r refs s).2.debt = s.debt + s.debt * DAILY_INTEREST_RATE := rfl
  rw [h, interestRate_val]
  ring

lemma runTicksA_debt : ∀ (rs : List TickRandoms) (p : Refs × GameState),
    (runTicksA rs p).2.debt = p.2.debt * (203/200) ^ rs.length := by
  intro rs
  induction rs with
  | nil => intro p; simp [runTicksA]
  | cons r t ih =>
    intro p
    have h1 : runTicksA (r :: t) p = runTicksA t (tickA r p.1 p.2) := rfl
    rw [h1, ih, tickA_debt, List.length_cons, pow_succ]
    ring

lemma runTicksB_debt : ∀ (rs : List TickRandoms) (p : Refs × GameState),
    (runTicksB rs p).2.debt = p.2.debt * (203/200) ^ rs.length := by
  intro rs
  induction rs with
  | nil => intro p; simp [runTicksB]
  | cons r t ih =>
    intro p
    have h1 : runTicksB (r :: t) p = runTicksB t (tickB r p.1 p.2) := rfl
    rw [h1, ih, tickB_debt, List.length_cons, pow_succ]
    ring

/-! Claim theorems. -/

/-- Claim C1, counterexample.  In variant A the price loop runs before the
event update: starting from the initial state with an active ENERGY event in
its last remaining day and a mean random draw, the tick clears the event
(post-update active event is none), yet the new oil price is 88.8 — the
value produced by the 2.1 multiplier of the pre-update event — while the
price computed from the post-event-update active event would be 80. -/
theorem variantA_price_uses_pre_update_event :
    (tickA r0 refs0 sEvt).2.activeEvent = none ∧
    ((tickA r0 refs0 sEvt).2.prices oilId).currentPrice = 444/5 ∧
    (nextPrice (findCommodity oilId) (tickA r0 refs0 sEvt).2.activeEvent (r0.priceRand oilId) (sEvt.prices oilId)).currentPrice = 80 ∧
    ((444 : ℚ)/5) ≠ 80 := by
  have hev : (tickA r0 refs0 sEvt).2.activeEvent = none := by decide
  have hni : oilId ∉ (COMMODITIES.drop 1).map (fun x => x.id) := by decide
  have h1 : (tickA r0 refs0 sEvt).2.prices oilId
      = priceFold (some testEvent) r0.priceRand COMMODITIES initialPrices oilId := rfl
  have h2 : priceFold (some testEvent) r0.priceRand COMMODITIES initialPrices oilId
      = nextPrice (findCommodity oilId) (some testEvent) (r0.priceRand oilId) (initialPrices oilId) :=
    priceFold_head (some testEvent) r0.priceRand (findCommodity oilId) (COMMODITIES.drop 1) initialPrices hni
  have h3 : initialPrices oilId
      = { id := oilId, currentPrice := 80, history := [80], trend := .stable } := by decide
  refine ⟨hev, ?_, ?_, by norm_num⟩
  · rw [h1, h2, h3]
    norm_num [nextPrice, findCommodity, COMMODITIES, oilId, testEvent, r0]
  · rw [hev]
    have h4 : sEvt.prices oilId
        = { id := oilId, currentPrice := 80, history := [80], trend := .stable } := by decide
    rw [h4]
    norm_num [nextPrice, findCommodity, COMMODITIES, oilId, r0]

/-- Claim C1, amended.  In variant B the active-event update (decrement,
clear at 0, possible new trigger) precedes the price loop and every new
price is computed from the post-update event; in variant A the price loop
runs first and uses the pre-update active event carried over from the
previous tick, while the event update still happens within the tick. -/
theorem tick_event_price_order (r : TickRandoms) (refs : Refs) (s : GameState) :
    (tickB r refs s).2.activeEvent = eventStep r s.activeEvent (s.cycleProgress + 1) ∧
    (tickB r refs s).2.prices = tickPrices (eventStep r s.activeEvent (s.cycleProgress + 1)) r.priceRand s.prices ∧
    (tickA r refs s).2.activeEvent = eventStep r s.activeEvent (s.cycleProgress + 1) ∧
    (tickA r refs s).2.prices = tickPrices s.activeEvent r.priceRand s.prices :=
  ⟨rfl, rfl, rfl, rfl⟩

/-- Claim C3: after a tick of either variant, the price of every catalog
commodity is at least 0.1 times its base price, regardless of the active
event and of the random draws. -/
theorem tick_price_floor (r : TickRandoms) (refs : Refs) (s : GameState) (c : Commodity)
    (hc : c ∈ COMMODITIES) :
    c.basePrice * 0.1 ≤ ((tickA r refs s).2.prices c.id).currentPrice ∧
    c.basePrice * 0.1 ≤ ((tickB r refs s).2.prices c.id).currentPrice := by
  have hnd : (COMMODITIES.map (fun c => c.id)).Nodup := by decide
  constructor
  · have hA : (tickA r refs s).2.prices = tickPrices s.activeEvent r.priceRand s.prices := rfl
    obtain ⟨p0, hp⟩ := priceFold_mem s.activeEvent r.priceRand COMMODITIES s.prices c hc hnd
    rw [hA, tickPrices, hp]
    exact nextPrice_floor c _ _ p0
  · have hB : (tickB r refs s).2.prices
        = tickPrices (eventStep r s.activeEvent (s.cycleProgress + 1)) r.priceRand s.prices := rfl
    obtain ⟨p0, hp⟩ := priceFold_mem (eventStep r s.activeEvent (s.cycleProgress + 1)) r.priceRand COMMODITIES s.prices c hc hnd
    rw [hB, tickPrices, hp]
    exact nextPrice_floor c _ _ p0

/-- Witness for the C3 theorem at the oil commodity and the initial state. -/
theorem tick_price_floor_witness :
    oilCommodity ∈ COMMODITIES ∧
    (oilCommodity.basePrice * 0.1 ≤ ((tickA r0 refs0 initStateA).2.prices oilCommodity.id).currentPrice ∧
     oilCommodity.basePrice * 0.1 ≤ ((tickB r0 refs0 initStateA).2.prices oilCommodity.id).currentPrice) :=
  ⟨List.mem_cons_self _ _, tick_price_floor r0 refs0 initStateA oilCommodity (List.mem_cons_self _ _)⟩

/-- Claim C4, counterexample.  In the initial state debt is 0, so 100 lies
outside [0, min(cash, debt)], yet handleRepay changes both cash and debt:
the handler performs no validation. -/
theorem handleRepay_unvalidated :
    ¬ (100 ≤ min initStateA.cash initStateA.debt) ∧
    (handleRepay 100 initStateA).cash ≠ initStateA.cash ∧
    (handleRepay 100 initStateA).debt ≠ initStateA.debt := by
  refine ⟨by decide, ?_, ?_⟩
  · show initStateA.cash - 100 ≠ initStateA.cash
    norm_num [initStateA, INITIAL_CASH]
  · show initStateA.debt - 100 ≠ initStateA.debt
    norm_num [initStateA]

/-- Claim C4, amended.  handleRepay applies the chosen amount
unconditionally: cash and debt each decrease by exactly the amount, for
every amount.  A repayment inside [0, min(cash, debt)] therefore behaves as
the claim says, but out-of-range amounts are applied rather than rejected
(range enforcement exists only in the UI slider bounds). -/
theorem handleRepay_unconditional (s : GameState) (amount : ℚ) :
    (handleRepay amount s).cash = s.cash - amount ∧
    (handleRepay amount s).debt = s.debt - amount :=
  ⟨rfl, rfl⟩

/-- Claim C5, counterexample.  In variant B, takeLoan has no guard: with
outstanding debt 100 the loan is still applied, changing cash and debt. -/
theorem takeLoanB_accepts_with_debt :
    0 < sDebt.debt ∧
    (takeLoanB 5000 sDebt).debt ≠ sDebt.debt ∧
    (takeLoanB 5000 sDebt).cash ≠ sDebt.cash := by
  refine ⟨by decide, ?_, ?_⟩
  · show sDebt.debt + 5000 ≠ sDebt.debt
    norm_num [sDebt, initStateA]
  · show sDebt.cash + 5000 ≠ sDebt.cash
    norm_num [sDebt, initStateA, INITIAL_CASH]

/-- Claim C5, amended.  In variant A, takeLoan is rejected (state unchanged)
whenever debt is positive and otherwise adds the amount to both cash and
debt; in variant B, takeLoan is unguarded and always adds the amount to both
cash and debt, so a second loan can be taken while debt is outstanding. -/
theorem takeLoan_behavior (s : GameState) (amount : ℚ) :
    (0 < s.debt → takeLoanA amount s = s) ∧
    (¬ 0 < s.debt → (takeLoanA amount s).cash = s.cash + amount ∧ (takeLoanA amount s).debt = s.debt + amount) ∧
    ((takeLoanB amount s).cash = s.cash + amount ∧ (takeLoanB amount s).debt = s.debt + amount) := by
  refine ⟨fun h => ?_, fun h => ?_, rfl, rfl⟩
  · simp [takeLoanA, h]
  · simp [takeLoanA, h]

/-- Witness for the C5 amended theorem: a state with debt 100 rejects the
variant A loan, and the zero-debt initial state accepts it. -/
theorem takeLoan_behavior_witness :
    takeLoanA 5000 sDebt = sDebt ∧
    ((takeLoanA 5000 initStateA).cash = initStateA.cash + 5000 ∧
     (takeLoanA 5000 initStateA).debt = initStateA.debt + 5000) :=
  ⟨(takeLoan_behavior sDebt 5000).1 (by decide), (takeLoan_behavior initStateA 5000).2.1 (by decide)⟩

/-- Claim C6: over any sequence of ticks of either variant (and any random
draws), with no loan or repayment action interleaved, debt compounds to
debt0 times 1.015 to the number of ticks — exactly, in rational
arithmetic. -/
theorem debt_compounds (rs : List TickRandoms) (refs : Refs) (s : GameState) :
    (runTicksA rs (refs, s)).2.debt = s.debt * (1.015 : ℚ) ^ rs.length ∧
    (runTicksB rs (refs, s)).2.debt = s.debt * (1.015 : ℚ) ^ rs.length := by
  have h : (1.015 : ℚ) = 203/200 := by norm_num
  rw [h]
  exact ⟨runTicksA_debt rs (refs, s), runTicksB_debt rs (refs, s)⟩

/-- Claim C10: the cash returned by a variant B tick is clamped at 0 by the
Math.max in the returned record, for every input state and random draws. -/
theorem tickB_cash_nonneg (r : TickRandoms) (refs : Refs) (s : GameState) :
    0 ≤ (tickB r refs s).2.cash :=
  le_max_left 0 _

lemma ownedQty_bumpQty (id : String) (a : ℚ) :
    ∀ l : List InventoryItem,
      ownedQty (bumpQty id a l) id = ownedQty l id + a ∨
      ownedQty (bumpQty id a l) id = ownedQty l id := by
  intro l
  induction l with
  | nil => right; rfl
  | cons i t ih =>
    by_cases h : (i.commodityId == id) = true
    · left
      simp [bumpQty, ownedQty, List.find?, h]
    · rcases ih with h1 | h1
      · left
        simpa [bumpQty, ownedQty, List.find?, h] using h1
      · right
        simpa [bumpQty, ownedQty, List.find?, h] using h1

/-- Claim C7: for a facility whose progress lies in [0,100) before the tick,
the production step emits exactly one facility whose progress again lies in
[0,100) (wrapped by the remainder on completion), and the inventory is
either unchanged or credited exactly once with the catalog production yield
of the facility commodity -- even when the increment 5 + level*10 pushes the
progress past 200. -/
theorem facilityStep_progress_yield (hasNoCash : Bool) (inv : List InventoryItem)
    (fs : List ProductionFacility) (cost : ℚ) (fac : ProductionFacility)
    (h0 : 0 ≤ fac.progress) (h1 : fac.progress < 100) :
    ∃ g : ProductionFacility,
      (facilityStep hasNoCash (inv, fs, cost) fac).2.1 = fs ++ [g] ∧
      g.commodityId = fac.commodityId ∧
      0 ≤ g.progress ∧ g.progress < 100 ∧
      ((facilityStep hasNoCash (inv, fs, cost) fac).1 = inv ∨
        (facilityStep hasNoCash (inv, fs, cost) fac).1
          = bumpQty fac.commodityId (findCommodity fac.commodityId).productionYield inv) ∧
      (ownedQty (facilityStep hasNoCash (inv, fs, cost) fac).1 fac.commodityId
          = ownedQty inv fac.commodityId + (findCommodity fac.commodityId).productionYield ∨
        ownedQty (facilityStep hasNoCash (inv, fs, cost) fac).1 fac.commodityId
          = ownedQty inv fac.commodityId) := by
  by_cases hp : (fac.isProducing && !hasNoCash) = true
  · by_cases hw : fac.progress + (5 + (fac.level : ℚ) * 10) ≥ 100
    · have hred : facilityStep hasNoCash (inv, fs, cost) fac
          = (bumpQty fac.commodityId (findCommodity fac.commodityId).productionYield inv,
             fs ++ [{ fac with progress := jsMod (fac.progress + (5 + (fac.level : ℚ) * 10)) 100 }],
             cost + (⌊(findCommodity fac.commodityId).productionCost * (1.4 : ℚ) ^ (fac.level - 1)⌋ : ℚ)) := by
        simp only [facilityStep, hp, if_true, hw, if_pos]
      refine ⟨{ fac with progress := jsMod (fac.progress + (5 + (fac.level : ℚ) * 10)) 100 },
        ?_, rfl, jsMod_nonneg _, jsMod_lt _, ?_, ?_⟩
      · rw [hred]
      · right; rw [hred]
      · rw [hred]
        exact ownedQty_bumpQty fac.commodityId _ inv
    · have hred : facilityStep hasNoCash (inv, fs, cost) fac
          = (inv,
             fs ++ [{ fac with progress := fac.progress + (5 + (fac.level : ℚ) * 10) }],
             cost + (⌊(findCommodity fac.commodityId).productionCost * (1.4 : ℚ) ^ (fac.level - 1)⌋ : ℚ)) := by
        simp only [facilityStep, hp, if_true, hw, if_neg, if_false]
      have hlev : (0 : ℚ) ≤ 5 + (fac.level : ℚ) * 10 := by positivity
      push_neg at hw
      refine ⟨{ fac with progress := fac.progress + (5 + (fac.level : ℚ) * 10) },
        ?_, rfl, show (0:ℚ) ≤ fac.progress + (5 + (fac.level : ℚ) * 10) by linarith, hw, ?_, ?_⟩
      · rw [hred]
      · left; rw [hred]
      · right; rw [hred]
  · have hred : facilityStep hasNoCash (inv, fs, cost) fac
        = (inv,
           fs ++ [{ fac with isProducing := if (fac.isProducing && hasNoCash) = true then false else fac.isProducing }],
           cost) := by
      simp only [facilityStep, hp, if_false, Bool.false_eq_true]
    refine ⟨{ fac with isProducing := if (fac.isProducing && hasNoCash) = true then false else fac.isProducing },
      ?_, rfl, h0, h1, ?_, ?_⟩
    · rw [hred]
    · left; rw [hred]
    · right; rw [hred]

/-- A concrete producing facility at level 10 and progress 99: the increment
is 105, pushing raw progress to 204. -/
def facW : ProductionFacility := { commodityId := oilId, level := 10, isProducing := true, progress := 99 }

/-- A one-entry inventory for the witness. -/
def invW : List InventoryItem := [{ commodityId := oilId, quantity := 0 }]

/-- Witness for the C7 theorem at a concrete high-level facility. -/
theorem facilityStep_progress_yield_witness :
    ∃ g : ProductionFacility,
      (facilityStep false (invW, [], 0) facW).2.1 = [] ++ [g] ∧
      g.commodityId = facW.commodityId ∧
      0 ≤ g.progress ∧ g.progress < 100 ∧
      ((facilityStep false (invW, [], 0) facW).1 = invW ∨
        (facilityStep false (invW, [], 0) facW).1
          = bumpQty facW.commodityId (findCommodity facW.commodityId).productionYield invW) ∧
      (ownedQty (facilityStep false (invW, [], 0) facW).1 facW.commodityId
          = ownedQty invW facW.commodityId + (findCommodity facW.commodityId).productionYield ∨
        ownedQty (facilityStep false (invW, [], 0) facW).1 facW.commodityId
          = ownedQty invW facW.commodityId) :=
  facilityStep_progress_yield false invW [] 0 facW (by decide) (by decide)

/-- Claim C8: unlocking a facility costs basePrice times 25 and is rejected
with the state unchanged when cash is below the cost or a facility for the
commodity already exists; an accepted unlock debits the cost and appends a
facility at level 1, producing, with progress 0.  Concretely, unlocking the
oil facility (cost 2000) from the initial cash of 5000 leaves cash 3000. -/
theorem handleUnlockFacility_correct (s : GameState) (id : String) :
    ((s.cash < (findCommodity id).basePrice * 25 ∨ s.facilities.any (fun f => f.commodityId == id) = true) →
        handleUnlockFacility id s = s) ∧
    (¬ (s.cash < (findCommodity id).basePrice * 25 ∨ s.facilities.any (fun f => f.commodityId == id) = true) →
        (handleUnlockFacility id s).cash = s.cash - (findCommodity id).basePrice * 25 ∧
        (handleUnlockFacility id s).facilities
          = s.facilities ++ [{ commodityId := id, level := 1, isProducing := true, progress := 0 }]) ∧
    ((handleUnlockFacility oilId initStateA).cash = 3000 ∧
      (handleUnlockFacility oilId initStateA).facilities
        = [{ commodityId := oilId, level := 1, isProducing := true, progress := 0 }]) := by
  have hbase : (findCommodity oilId).basePrice = 80 := by decide
  have hcond : ¬ (initStateA.cash < (findCommodity oilId).basePrice * 25 ∨
      initStateA.facilities.any (fun f => f.commodityId == oilId) = true) := by
    rw [not_or]
    refine ⟨?_, by decide⟩
    rw [hbase]
    show ¬ (5000 : ℚ) < 80 * 25
    norm_num
  refine ⟨fun h => ?_, fun h => ?_, ?_, ?_⟩
  · simp only [handleUnlockFacility]
    rw [if_pos h]
  · simp only [handleUnlockFacility]
    rw [if_neg h]
    exact ⟨rfl, rfl⟩
  · simp only [handleUnlockFacility]
    rw [if_neg hcond]
    show initStateA.cash - (findCommodity oilId).basePrice * 25 = 3000
    rw [hbase]
    show (5000 : ℚ) - 80 * 25 = 3000
    norm_num
  · simp only [handleUnlockFacility]
    rw [if_neg hcond]
    rfl

/-- Witness for the C8 theorem: unlocking gold (cost 50000) from the initial
state is rejected, and the accepted oil unlock leaves cash 3000. -/
theorem handleUnlockFacility_correct_witness :
    handleUnlockFacility goldId initStateA = initStateA ∧
    (handleUnlockFacility oilId initStateA).cash = 3000 := by
  refine ⟨(handleUnlockFacility_correct initStateA goldId).1 (Or.inl ?_),
    (handleUnlockFacility_correct initStateA oilId).2.2.1⟩
  have hbase : (findCommodity goldId).basePrice = 2000 := by decide
  rw [hbase]
  show (5000 : ℚ) < 2000 * 25
  norm_num

lemma getD_append_pair : ∀ (l : List ℚ) (a b : ℚ), (l ++ [a, b]).getD l.length 0 = a := by
  intro l
  induction l with
  | nil => intro a b; rfl
  | cons x t ih =>
    intro a b
    simpa [List.getD_cons_succ] using ih a b

/-- Claim C9: with at most one history entry the displayed percent price
change is 0 (no prior entry is read); with two or more entries it is
(currentPrice minus the second-to-last entry) over that entry, times 100. -/
theorem priceChange_spec :
    (∀ md : MarketPrice, md.history.length ≤ 1 → priceChange md = 0) ∧
    (∀ (s : String) (p a b : ℚ) (l : List ℚ) (tr : Trend),
        priceChange { id := s, currentPrice := p, history := l ++ [a, b], trend := tr }
          = (p - a) / a * 100) := by
  constructor
  · intro md h
    have hx : ¬ 1 < md.history.length := by omega
    simp [priceChange, hx]
  · intro s p a b l tr
    have hlen : (l ++ [a, b]).length = l.length + 2 := by simp
    have hgt : 1 < (l ++ [a, b]).length := by rw [hlen]; omega
    have hidx : (l ++ [a, b]).length - 2 = l.length := by rw [hlen]; omega
    show (if 1 < (l ++ [a, b]).length then
        (p - (l ++ [a, b]).getD ((l ++ [a, b]).length - 2) 0)
          / (l ++ [a, b]).getD ((l ++ [a, b]).length - 2) 0 * 100
      else 0) = (p - a) / a * 100
    rw [if_pos hgt, hidx, getD_append_pair]

/-- Witness for the C9 theorem: a one-point history gives 0, and the history
75, 80, 90 with current price 90 gives the formula value. -/
theorem priceChange_spec_witness :
    priceChange { id := oilId, currentPrice := 80, history := [80], trend := .stable } = 0 ∧
    priceChange { id := oilId, currentPrice := 90, history := [75] ++ [80, 90], trend := .up }
      = (90 - 80) / 80 * 100 :=
  ⟨priceChange_spec.1 _ (by decide), priceChange_spec.2 oilId 90 80 90 [75] .up⟩

lemma find?_map_trade (l : List InventoryItem) (id : String) (q : ℚ) :
    (l.map (fun item =>
        if item.commodityId == id then { item with quantity := item.quantity + q } else item)).find?
        (fun i => i.commodityId == id)
      = (l.find? (fun i => i.commodityId == id)).map (fun item =>
          if item.commodityId == id then { item with quantity := item.quantity + q } else item) := by
  rw [List.find?_map]
  have hpf : ((fun i : InventoryItem => i.commodityId == id) ∘ (fun item =>
      if item.commodityId == id then { item with quantity := item.quantity + q } else item))
      = (fun i : InventoryItem => i.commodityId == id) := by
    funext x
    by_cases hx : (x.commodityId == id) = true
    · have hx2 : x.commodityId = id := by simpa using hx
      simp [Function.comp, hx, hx2]
    · have hx2 : ¬ x.commodityId = id := by simpa using hx
      simp [Function.comp, hx, hx2]
  rw [hpf]

/-- Claim C2: for a state holding an inventory entry for the commodity,
buying a positive quantity q succeeds exactly when q times the current price
is at most cash, debiting exactly that amount and crediting q units;
selling (negative quantity) succeeds exactly when the owned quantity covers
it, crediting cash and debiting inventory symmetrically; and any trade
failing its precondition returns the state unchanged. -/
theorem handleTrade_correct (s : GameState) (refs : Refs) (id : String) (q : ℚ)
    (item : InventoryItem)
    (hfind : s.inventory.find? (fun i => i.commodityId == id) = some item) :
    (0 < q → q * (s.prices id).currentPrice ≤ s.cash →
      (handleTrade id q refs s).2.cash = s.cash - q * (s.prices id).currentPrice ∧
      ownedQty (handleTrade id q refs s).2.inventory id = item.quantity + q) ∧
    (0 < q → s.cash < q * (s.prices id).currentPrice → (handleTrade id q refs s).2 = s) ∧
    (q < 0 → -q ≤ item.quantity →
      (handleTrade id q refs s).2.cash = s.cash - q * (s.prices id).currentPrice ∧
      ownedQty (handleTrade id q refs s).2.inventory id = item.quantity + q) ∧
    (q < 0 → item.quantity < -q → (handleTrade id q refs s).2 = s) := by
  have hbeq : (item.commodityId == id) = true := by
    have h := List.find?_some hfind
    simpa using h
  have howned : ownedQty (s.inventory.map (fun item =>
      if item.commodityId == id then { item with quantity := item.quantity + q } else item)) id
      = item.quantity + q := by
    unfold ownedQty
    rw [find?_map_trade, hfind]
    have hbeq2 : item.commodityId = id := by simpa using hbeq
    simp [hbeq2]
  refine ⟨fun hq hc => ?_, fun hq hc => ?_, fun hq hc => ?_, fun hq hc => ?_⟩
  · have h1 : ¬ (0 < q ∧ s.cash < q * (s.prices id).currentPrice) := by
      rintro ⟨-, hlt⟩
      exact absurd hlt (not_lt.mpr hc)
    have h2 : ¬ (q < 0 ∧ (s.inventory.find? (fun i => i.commodityId == id) = none ∨
        ((s.inventory.find? (fun i => i.commodityId == id)).getD
          { commodityId := id, quantity := 0 }).quantity < |q|)) := by
      rintro ⟨hq0, -⟩
      exact absurd hq0 (not_lt.mpr hq.le)
    simp only [handleTrade]
    rw [if_neg h1, if_neg h2]
    exact ⟨rfl, howned⟩
  · simp only [handleTrade]
    rw [if_pos ⟨hq, hc⟩]
  · have h1 : ¬ (0 < q ∧ s.cash < q * (s.prices id).currentPrice) := by
      rintro ⟨hq0, -⟩
      exact absurd hq0 (not_lt.mpr hq.le)
    have h2 : ¬ (q < 0 ∧ (s.inventory.find? (fun i => i.commodityId == id) = none ∨
        ((s.inventory.find? (fun i => i.commodityId == id)).getD
          { commodityId := id, quantity := 0 }).quantity < |q|)) := by
      rintro ⟨-, hor⟩
      rw [hfind] at hor
      rcases hor with hnone | hlt
      · exact Option.noConfusion hnone
      · rw [Option.getD_some, abs_of_neg hq] at hlt
        exact absurd hlt (not_lt.mpr hc)
    simp only [handleTrade]
    rw [if_neg h1, if_neg h2]
    exact ⟨rfl, howned⟩
  · have h1 : ¬ (0 < q ∧ s.cash < q * (s.prices id).currentPrice) := by
      rintro ⟨hq0, -⟩
      exact absurd hq0 (not_lt.mpr hq.le)
    have h2 : q < 0 ∧ (s.inventory.find? (fun i => i.commodityId == id) = none ∨
        ((s.inventory.find? (fun i => i.commodityId == id)).getD
          { commodityId := id, quantity := 0 }).quantity < |q|) := by
      refine ⟨hq, Or.inr ?_⟩
      rw [hfind, Option.getD_some, abs_of_neg hq]
      exact hc
    simp only [handleTrade]
    rw [if_neg h1, if_pos h2]

/-- Witness for the C2 theorem: buying 10 oil at price 80 from the initial
state succeeds with cash debited by 800, and selling 5 oil with none owned
is a no-op. -/
theorem handleTrade_correct_witness :
    initStateA.inventory.find? (fun i => i.commodityId == oilId)
      = some { commodityId := oilId, quantity := 0 } ∧
    ((handleTrade oilId 10 refs0 initStateA).2.cash
        = initStateA.cash - 10 * (initStateA.prices oilId).currentPrice ∧
      ownedQty (handleTrade oilId 10 refs0 initStateA).2.inventory oilId
        = ({ commodityId := oilId, quantity := 0 } : InventoryItem).quantity + 10) ∧
    (handleTrade oilId (-5) refs0 initStateA).2 = initStateA := by
  have hfind : initStateA.inventory.find? (fun i => i.commodityId == oilId)
      = some { commodityId := oilId, quantity := 0 } := by decide
  refine ⟨hfind, ?_, ?_⟩
  · refine (handleTrade_correct initStateA refs0 oilId 10 _ hfind).1 (by norm_num) ?_
    have hP : (initStateA.prices oilId).currentPrice = 80 := by decide
    rw [hP]
    show (10 : ℚ) * 80 ≤ 5000
    norm_num
  · refine (handleTrade_correct initStateA refs0 oilId (-5) _ hfind).2.2.2 (by norm_num) ?_
    show (0 : ℚ) < -(-5)
    norm_num
